import Mathlib

/-!
Shallow embedding of `src/backends/conrod_glium/examples/support/mod.rs`
(the conrod glium example support module): the event translator
(`convert_event`, `convert_key`, `convert_mouse_button`) and the adaptive
redraw scheduler (`run_loop`), together with theorems checking the
natural-language specification against this embedding.

Modelling conventions:
* `conrod_core::Scalar` (= `f64`) is modelled as `Rat`; every concrete value
  appearing in the claims is exactly representable in binary floating point,
  and the arithmetic involved (subtraction, division by 2, negation,
  multiplication by 10) is exact at those values.
* The platform's physical→logical conversion (`to_logical`, part of glutin,
  not of this repository) is outside the embedding: events carry logical
  coordinates, and the window is represented by its logical size.
* `std::time::Instant` is modelled as `Nat` (milliseconds);
  `Instant::now() + sixteen_ms` becomes `now + sixteen_ms`.
* The `run_loop` body is embedded as a step function `run_step` on the loop's
  captured state (`next_update`, `ui_update_needed`); the caller-supplied
  callback's outputs (`should_update_ui`, `should_exit`, `needs_redraw`) are
  inputs of the step, and the step records which callbacks and platform
  requests the body issued.
-/

namespace conrod

/-- The `conrod_core::input::keyboard::Key` constructors reachable from the
support module (the targets of the `convert_key` table), plus `Unknown`. -/
inductive Key where
  | D0 | D1 | D2 | D3 | D4 | D5 | D6 | D7 | D8 | D9
  | A | B | C | D | E | F | G | H | I | J | K | L | M
  | N | O | P | Q | R | S | T | U | V | W | X | Y | Z
  | Backslash | Backspace | Delete | Comma | Down | End | Return | Equals
  | Escape
  | F1 | F2 | F3 | F4 | F5 | F6 | F7 | F8 | F9 | F10 | F11 | F12 | F13 | F14
  | F15
  | NumPad0 | NumPad1 | NumPad2 | NumPad3 | NumPad4 | NumPad5 | NumPad6
  | NumPad7 | NumPad8 | NumPad9
  | NumPadDecimal | NumPadDivide | NumPadMultiply | NumPadMinus | NumPadPlus
  | NumPadEnter | NumPadEquals
  | LShift | LCtrl | LAlt | RShift | RCtrl | RAlt
  | Home | Insert | Left | LeftBracket | Minus | NumLockClear
  | PageDown | PageUp | Pause | Period | Right | RightBracket
  | Semicolon | Slash | Space | Tab | Up
  | Unknown
deriving DecidableEq, Repr

/-- `conrod_core::input::MouseButton`. -/
inductive MouseButton where
  | Left | Right | Middle | X1 | X2 | Button6 | Button7 | Button8 | Unknown
deriving DecidableEq, Repr

/-- `conrod_core::input::touch::Phase`. -/
inductive Phase where
  | Start | Move | Cancel | End
deriving DecidableEq, Repr

/-- `conrod_core::input::Touch` (`xy` is a 2-element array in the source). -/
structure Touch where
  phase : Phase
  id : Nat
  x : Rat
  y : Rat
deriving DecidableEq, Repr

/-- `conrod_core::input::Motion` (the variants produced by this module). -/
inductive Motion where
  | MouseCursor (x y : Rat)
  | Scroll (x y : Rat)
deriving DecidableEq, Repr

/-- `conrod_core::input::Button` (the variants produced by this module). -/
inductive Button where
  | Keyboard (k : Key)
  | Mouse (b : MouseButton)
deriving DecidableEq, Repr

/-- `conrod_core::event::Input` (the variants produced by this module). -/
inductive Input where
  | Resize (width height : Rat)
  | Text (s : String)
  | Focus (focused : Bool)
  | Press (b : Button)
  | Release (b : Button)
  | Motion (m : conrod.Motion)
  | Touch (t : conrod.Touch)
deriving DecidableEq, Repr

end conrod

namespace glutin

/-- `glium::glutin::event::VirtualKeyCode` (winit's virtual key code set). -/
inductive VirtualKeyCode where
  | Key1 | Key2 | Key3 | Key4 | Key5 | Key6 | Key7 | Key8 | Key9 | Key0
  | A | B | C | D | E | F | G | H | I | J | K | L | M
  | N | O | P | Q | R | S | T | U | V | W | X | Y | Z
  | Escape
  | F1 | F2 | F3 | F4 | F5 | F6 | F7 | F8 | F9 | F10 | F11 | F12
  | F13 | F14 | F15 | F16 | F17 | F18 | F19 | F20 | F21 | F22 | F23 | F24
  | Snapshot | Scroll | Pause
  | Insert | Home | Delete | End | PageDown | PageUp
  | Left | Up | Right | Down
  | Back | Return | Space | Compose | Caret | Numlock
  | Numpad0 | Numpad1 | Numpad2 | Numpad3 | Numpad4
  | Numpad5 | Numpad6 | Numpad7 | Numpad8 | Numpad9
  | NumpadAdd | NumpadDivide | NumpadDecimal | NumpadComma | NumpadEnter
  | NumpadEquals | NumpadMultiply | NumpadSubtract
  | AbntC1 | AbntC2 | Apostrophe | Apps | Asterisk | At | Ax
  | Backslash | Calculator | Capital | Colon | Comma | Convert
  | Equals | Grave | Kana | Kanji
  | LAlt | LBracket | LControl | LShift | LWin
  | Mail | MediaSelect | MediaStop | Minus | Mute
  | MyComputer | NavigateForward | NavigateBackward | NextTrack | NoConvert
  | OEM102 | Period | PlayPause | Plus | Power | PrevTrack
  | RAlt | RBracket | RControl | RShift | RWin
  | Semicolon | Slash | Sleep | Stop | Sysrq | Tab | Underline | Unlabeled
  | VolumeDown | VolumeUp | Wake
  | WebBack | WebFavorites | WebForward | WebHome | WebRefresh | WebSearch
  | WebStop | Yen | Copy | Paste | Cut
deriving DecidableEq, Repr

/-- `glium::glutin::event::ElementState`. -/
inductive ElementState where
  | Pressed | Released
deriving DecidableEq, Repr

/-- `glium::glutin::event::MouseButton` (`Other` carries a `u16`). -/
inductive MouseButton where
  | Left | Right | Middle
  | Other (n : Nat)
deriving DecidableEq, Repr

/-- `glium::glutin::event::MouseScrollDelta`; `PixelDelta` carries the
already-logical position (`to_logical` applied by the platform layer). -/
inductive MouseScrollDelta where
  | LineDelta (x y : Rat)
  | PixelDelta (x y : Rat)
deriving DecidableEq, Repr

/-- `glium::glutin::event::TouchPhase`. -/
inductive TouchPhase where
  | Started | Moved | Ended | Cancelled
deriving DecidableEq, Repr

/-- `glium::glutin::event::WindowEvent`, restricted to the variants the
support module matches on, with an `Other` stand-in for all remaining
variants (matched by the wildcard arm). Positions and sizes are logical. -/
inductive WindowEvent where
  | Resized (width height : Rat)
  | ReceivedCharacter (ch : Char)
  | Focused (focused : Bool)
  | KeyboardInput (state : ElementState) (virtual_keycode : Option VirtualKeyCode)
  | Touch (phase : TouchPhase) (x y : Rat) (id : Nat)
  | CursorMoved (x y : Rat)
  | MouseWheel (delta : MouseScrollDelta)
  | MouseInput (state : ElementState) (button : MouseButton)
  | Other
deriving DecidableEq, Repr

/-- `glium::glutin::event::StartCause`, the wake reason carried by
`Event::NewEvents`. -/
inductive StartCause where
  | Init
  | ResumeTimeReached
  | WaitCancelled
  | Poll
deriving DecidableEq, Repr

/-- `glium::glutin::event::Event`, restricted to the variants the support
module matches on, with an `Other` stand-in for all remaining variants. -/
inductive Event where
  | NewEvents (cause : StartCause)
  | WindowEvent (e : glutin.WindowEvent)
  | MainEventsCleared
  | RedrawRequested
  | Other
deriving DecidableEq, Repr

end glutin

open conrod glutin

/-- Embedding of `convert_key` with the semantics the source compiles to.
The first arm of the source's `match` is `Key0 => Key::D0`: the path
`VirtualKeyCode::Key0` is not imported unqualified, so Rust reads the bare
identifier `Key0` as an irrefutable binding pattern. That arm therefore
matches every keycode and all of the following arms (`VirtualKeyCode::Key1 =>
Key::D1`, ..., `_ => Key::Unknown`) are unreachable (rustc flags them as
unreachable patterns). The Lean `match` mirrors this: `Key0` is a pattern
variable here as well. The unreachable arms are transcribed in
`convert_key_table` for comparison with the specification. -/
def convert_key (keycode : VirtualKeyCode) : Key :=
  match keycode with
  | Key0 => Key.D0

/-- The key table as written in the arms of `convert_key` from
`VirtualKeyCode::Key1` onward, reading the first arm's bare `Key0` as the
evidently intended `VirtualKeyCode::Key0`. In the compiled code this whole
table is dead (see `convert_key`); it is the mapping the specification
describes. -/
def convert_key_table (keycode : VirtualKeyCode) : Key :=
  match keycode with
  | VirtualKeyCode.Key0 => Key.D0
  | VirtualKeyCode.Key1 => Key.D1
  | VirtualKeyCode.Key2 => Key.D2
  | VirtualKeyCode.Key3 => Key.D3
  | VirtualKeyCode.Key4 => Key.D4
  | VirtualKeyCode.Key5 => Key.D5
  | VirtualKeyCode.Key6 => Key.D6
  | VirtualKeyCode.Key7 => Key.D7
  | VirtualKeyCode.Key8 => Key.D8
  | VirtualKeyCode.Key9 => Key.D9
  | VirtualKeyCode.A => Key.A
  | VirtualKeyCode.B => Key.B
  | VirtualKeyCode.C => Key.C
  | VirtualKeyCode.D => Key.D
  | VirtualKeyCode.E => Key.E
  | VirtualKeyCode.F => Key.F
  | VirtualKeyCode.G => Key.G
  | VirtualKeyCode.H => Key.H
  | VirtualKeyCode.I => Key.I
  | VirtualKeyCode.J => Key.J
  | VirtualKeyCode.K => Key.K
  | VirtualKeyCode.L => Key.L
  | VirtualKeyCode.M => Key.M
  | VirtualKeyCode.N => Key.N
  | VirtualKeyCode.O => Key.O
  | VirtualKeyCode.P => Key.P
  | VirtualKeyCode.Q => Key.Q
  | VirtualKeyCode.R => Key.R
  | VirtualKeyCode.S => Key.S
  | VirtualKeyCode.T => Key.T
  | VirtualKeyCode.U => Key.U
  | VirtualKeyCode.V => Key.V
  | VirtualKeyCode.W => Key.W
  | VirtualKeyCode.X => Key.X
  | VirtualKeyCode.Y => Key.Y
  | VirtualKeyCode.Z => Key.Z
  | VirtualKeyCode.Apostrophe => Key.Unknown
  | VirtualKeyCode.Backslash => Key.Backslash
  | VirtualKeyCode.Back => Key.Backspace
  | VirtualKeyCode.Delete => Key.Delete
  | VirtualKeyCode.Comma => Key.Comma
  | VirtualKeyCode.Down => Key.Down
  | VirtualKeyCode.End => Key.End
  | VirtualKeyCode.Return => Key.Return
  | VirtualKeyCode.Equals => Key.Equals
  | VirtualKeyCode.Escape => Key.Escape
  | VirtualKeyCode.F1 => Key.F1
  | VirtualKeyCode.F2 => Key.F2
  | VirtualKeyCode.F3 => Key.F3
  | VirtualKeyCode.F4 => Key.F4
  | VirtualKeyCode.F5 => Key.F5
  | VirtualKeyCode.F6 => Key.F6
  | VirtualKeyCode.F7 => Key.F7
  | VirtualKeyCode.F8 => Key.F8
  | VirtualKeyCode.F9 => Key.F9
  | VirtualKeyCode.F10 => Key.F10
  | VirtualKeyCode.F11 => Key.F11
  | VirtualKeyCode.F12 => Key.F12
  | VirtualKeyCode.F13 => Key.F13
  | VirtualKeyCode.F14 => Key.F14
  | VirtualKeyCode.F15 => Key.F15
  | VirtualKeyCode.Numpad0 => Key.NumPad0
  | VirtualKeyCode.Numpad1 => Key.NumPad1
  | VirtualKeyCode.Numpad2 => Key.NumPad2
  | VirtualKeyCode.Numpad3 => Key.NumPad3
  | VirtualKeyCode.Numpad4 => Key.NumPad4
  | VirtualKeyCode.Numpad5 => Key.NumPad5
  | VirtualKeyCode.Numpad6 => Key.NumPad6
  | VirtualKeyCode.Numpad7 => Key.NumPad7
  | VirtualKeyCode.Numpad8 => Key.NumPad8
  | VirtualKeyCode.Numpad9 => Key.NumPad9
  | VirtualKeyCode.NumpadComma | VirtualKeyCode.NumpadDecimal => Key.NumPadDecimal
  | VirtualKeyCode.NumpadDivide => Key.NumPadDivide
  | VirtualKeyCode.NumpadMultiply => Key.NumPadMultiply
  | VirtualKeyCode.NumpadSubtract => Key.NumPadMinus
  | VirtualKeyCode.NumpadAdd => Key.NumPadPlus
  | VirtualKeyCode.NumpadEnter => Key.NumPadEnter
  | VirtualKeyCode.NumpadEquals => Key.NumPadEquals
  | VirtualKeyCode.LShift => Key.LShift
  | VirtualKeyCode.LControl => Key.LCtrl
  | VirtualKeyCode.LAlt => Key.LAlt
  | VirtualKeyCode.RShift => Key.RShift
  | VirtualKeyCode.RControl => Key.RCtrl
  | VirtualKeyCode.RAlt => Key.RAlt
  | VirtualKeyCode.Home => Key.Home
  | VirtualKeyCode.Insert => Key.Insert
  | VirtualKeyCode.Left => Key.Left
  | VirtualKeyCode.LBracket => Key.LeftBracket
  | VirtualKeyCode.Minus => Key.Minus
  | VirtualKeyCode.Numlock => Key.NumLockClear
  | VirtualKeyCode.PageDown => Key.PageDown
  | VirtualKeyCode.PageUp => Key.PageUp
  | VirtualKeyCode.Pause => Key.Pause
  | VirtualKeyCode.Period => Key.Period
  | VirtualKeyCode.Right => Key.Right
  | VirtualKeyCode.RBracket => Key.RightBracket
  | VirtualKeyCode.Semicolon => Key.Semicolon
  | VirtualKeyCode.Slash => Key.Slash
  | VirtualKeyCode.Space => Key.Space
  | VirtualKeyCode.Tab => Key.Tab
  | VirtualKeyCode.Up => Key.Up
  | _ => Key.Unknown

/-- Embedding of `convert_mouse_button`. -/
def convert_mouse_button (button : glutin.MouseButton) : conrod.MouseButton :=
  match button with
  | glutin.MouseButton.Left => conrod.MouseButton.Left
  | glutin.MouseButton.Right => conrod.MouseButton.Right
  | glutin.MouseButton.Middle => conrod.MouseButton.Middle
  | glutin.MouseButton.Other 0 => conrod.MouseButton.X1
  | glutin.MouseButton.Other 1 => conrod.MouseButton.X2
  | glutin.MouseButton.Other 2 => conrod.MouseButton.Button6
  | glutin.MouseButton.Other 3 => conrod.MouseButton.Button7
  | glutin.MouseButton.Other 4 => conrod.MouseButton.Button8
  | _ => conrod.MouseButton.Unknown

/-- Embedding of `convert_event`. The window argument of the source is
represented by its logical inner size `(win_w, win_h)`; positions inside the
events are logical (the physical→logical `to_logical` conversions, which
belong to glutin, happen before the embedding's inputs). -/
def convert_event (win_w win_h : Rat) (given_event : glutin.Event) :
    Option conrod.Input :=
  let tx := fun (x : Rat) => x - win_w / 2
  let ty := fun (y : Rat) => -(y - win_h / 2)
  match given_event with
  | glutin.Event.WindowEvent e =>
    match e with
    | glutin.WindowEvent.Resized width height =>
      some (Input.Resize width height)
    | glutin.WindowEvent.ReceivedCharacter ch =>
      let string :=
        match ch with
        | '\x7f' | '\x1b' | '\x08' | '\r' | '\n' | '\t' => ""
        | _ => String.singleton ch
      some (Input.Text string)
    | glutin.WindowEvent.Focused focused =>
      some (Input.Focus focused)
    | glutin.WindowEvent.KeyboardInput state virtual_keycode =>
      virtual_keycode.map fun key =>
        match state with
        | ElementState.Pressed =>
          Input.Press (Button.Keyboard (convert_key key))
        | ElementState.Released =>
          Input.Release (Button.Keyboard (convert_key key))
    | glutin.WindowEvent.Touch phase x y id =>
      let phase :=
        match phase with
        | TouchPhase.Started => Phase.Start
        | TouchPhase.Moved => Phase.Move
        | TouchPhase.Cancelled => Phase.Cancel
        | TouchPhase.Ended => Phase.End
      some (Input.Touch ⟨phase, id, tx x, ty y⟩)
    | glutin.WindowEvent.CursorMoved x y =>
      some (Input.Motion (Motion.MouseCursor (tx x) (ty y)))
    | glutin.WindowEvent.MouseWheel delta =>
      match delta with
      | MouseScrollDelta.PixelDelta x y =>
        some (Input.Motion (Motion.Scroll x (-y)))
      | MouseScrollDelta.LineDelta x y =>
        some (Input.Motion (Motion.Scroll (10 * x) (10 * -y)))
    | glutin.WindowEvent.MouseInput state button =>
      match state with
      | ElementState.Pressed =>
        some (Input.Press (Button.Mouse (convert_mouse_button button)))
      | ElementState.Released =>
        some (Input.Release (Button.Mouse (convert_mouse_button button)))
    | glutin.WindowEvent.Other => none
  | _ => none

/-- `sixteen_ms` from `run_loop` (`Duration::from_millis(16)`), in the
millisecond-tick model of time. -/
def sixteen_ms : Nat := 16

/-- The state captured by the `run_loop` closure: `next_update` and
`ui_update_needed`. -/
structure LoopState where
  next_update : Option Nat
  ui_update_needed : Bool
deriving DecidableEq, Repr

/-- `glium::glutin::event_loop::ControlFlow`. -/
inductive ControlFlow where
  | Poll
  | Wait
  | WaitUntil (t : Nat)
  | Exit
deriving DecidableEq, Repr

/-- One invocation of the `run_loop` closure, from the loop body's point of
view: the delivered platform event, the current instant, and the outputs the
caller-supplied callback writes through its `&mut` parameters
(`should_update_ui` and `should_exit` for the `Request::Event` call,
`needs_redraw` for the `Request::SetUi` call, read only if that call fires).
Fields in order: `event`, `now`, `should_update_ui`, `should_exit`,
`needs_redraw`. -/
structure StepInput where
  event : glutin.Event
  now : Nat
  should_update_ui : Bool
  should_exit : Bool
  needs_redraw : Bool
deriving DecidableEq, Repr

/-- What one invocation of the `run_loop` closure did: the new captured
state, whether the `Request::SetUi` callback fired (a commit), whether
`request_redraw()` was issued to the platform, whether the `Request::Redraw`
callback fired, and the `control_flow` value left for the platform.
Fields in order: `state`, `set_ui_called`, `redraw_requested`,
`redraw_callback_called`, `control`. -/
structure StepResult where
  state : LoopState
  set_ui_called : Bool
  redraw_requested : Bool
  redraw_callback_called : Bool
  control : ControlFlow
deriving DecidableEq, Repr

/-- Embedding of the `run_loop` closure body (one turn of the event loop).
Mirrors the source order: the `Request::Event` callback and the
`ui_update_needed |= should_update_ui` update, the early return on
`should_exit` (with `control_flow = Exit`), the match arming a commit on
`NewEvents(Init)`, `NewEvents(ResumeTimeReached)`, or `MainEventsCleared`
with `next_update.is_none() && ui_update_needed`, the `needs_redraw` /
`next_update = None` handling, the `control_flow` assignment from
`next_update`, and the `Request::Redraw` callback on `RedrawRequested`. -/
def run_step (s : LoopState) (i : StepInput) : StepResult :=
  let ui_update_needed := s.ui_update_needed || i.should_update_ui
  if i.should_exit then
    ⟨⟨s.next_update, ui_update_needed⟩, false, false, false, ControlFlow.Exit⟩
  else
    let should_set_ui_on_main_events_cleared :=
      s.next_update.isNone && ui_update_needed
    let fires :=
      match i.event, should_set_ui_on_main_events_cleared with
      | glutin.Event.NewEvents StartCause.Init, _ => true
      | glutin.Event.NewEvents StartCause.ResumeTimeReached, _ => true
      | glutin.Event.MainEventsCleared, true => true
      | _, _ => false
    let next_update :=
      if fires then
        if i.needs_redraw then some (i.now + sixteen_ms) else none
      else s.next_update
    let ui_update_needed := if fires then false else ui_update_needed
    let redraw_requested := fires && i.needs_redraw
    let control :=
      match next_update with
      | some t => ControlFlow.WaitUntil t
      | none => ControlFlow.Wait
    let redraw_callback_called :=
      match i.event with
      | glutin.Event.RedrawRequested => true
      | _ => false
    ⟨⟨next_update, ui_update_needed⟩, fires, redraw_requested,
      redraw_callback_called, control⟩

/-- The initial captured state of `run_loop`: `next_update = None`,
`ui_update_needed = false`. -/
def init_state : LoopState := ⟨none, false⟩

/-- A run of the loop: fold `run_step` over a list of step inputs, collecting
every step's result. -/
def run_trace (s : LoopState) : List StepInput → List StepResult
  | [] => []
  | i :: is =>
    let r := run_step s i
    r :: run_trace r.state is

/-- Claim C1 (code bug): `convert_key` does not implement its table. The
source's first match arm `Key0 => Key::D0` is a binding pattern, so the
compiled function maps every virtual key code to `Key::D0`; in particular
`A` maps to `D0`, not to the listed `Key::A`, and unlisted codes such as
`Snapshot` map to `D0`, not `Unknown`. The intended table (transcribed as
`convert_key_table`) would satisfy the claim. -/
theorem convert_key_is_constantly_d0 :
    (∀ k : VirtualKeyCode, convert_key k = Key.D0) ∧
    convert_key VirtualKeyCode.A = Key.D0 ∧
    convert_key VirtualKeyCode.Key1 = Key.D0 ∧
    convert_key VirtualKeyCode.F1 = Key.D0 ∧
    convert_key_table VirtualKeyCode.A = Key.A ∧
    convert_key_table VirtualKeyCode.Key1 = Key.D1 ∧
    convert_key_table VirtualKeyCode.F1 = Key.F1 ∧
    convert_key_table VirtualKeyCode.Snapshot = Key.Unknown :=
  ⟨fun _ => rfl, rfl, rfl, rfl, rfl, rfl, rfl, rfl⟩

/-- Claim C10 (code bug): `NumpadComma` and `NumpadDecimal` do both map to
one canonical key, but because the first match arm of `convert_key` is a
catch-all binding pattern that key is `D0`, not the `NumPadDecimal` listed
in the (unreachable) table arm at lines 301–303. -/
theorem numpad_comma_decimal_collapse :
    convert_key VirtualKeyCode.NumpadComma = Key.D0 ∧
    convert_key VirtualKeyCode.NumpadDecimal = Key.D0 ∧
    convert_key VirtualKeyCode.NumpadComma = convert_key VirtualKeyCode.NumpadDecimal ∧
    convert_key_table VirtualKeyCode.NumpadComma = Key.NumPadDecimal ∧
    convert_key_table VirtualKeyCode.NumpadDecimal = Key.NumPadDecimal :=
  ⟨rfl, rfl, rfl, rfl, rfl⟩

/-- Claim C6 (confirmed): a cursor-move event at logical `(x, y)` with window
logical size `(win_w, win_h)` yields `Motion::MouseCursor` at
`(x - win_w/2, -(y - win_h/2))`; for window `(800, 600)`, logical
`(400, 300)` maps to `(0, 0)` and logical `(0, 0)` maps to `(-400, 300)`. -/
theorem cursor_moved_transform (win_w win_h x y : Rat) :
    convert_event win_w win_h
        (glutin.Event.WindowEvent (glutin.WindowEvent.CursorMoved x y)) =
      some (Input.Motion (Motion.MouseCursor (x - win_w / 2) (-(y - win_h / 2)))) ∧
    convert_event 800 600
        (glutin.Event.WindowEvent (glutin.WindowEvent.CursorMoved 400 300)) =
      some (Input.Motion (Motion.MouseCursor 0 0)) ∧
    convert_event 800 600
        (glutin.Event.WindowEvent (glutin.WindowEvent.CursorMoved 0 0)) =
      some (Input.Motion (Motion.MouseCursor (-400) 300)) :=
  ⟨rfl, by norm_num [convert_event], by norm_num [convert_event]⟩

/-- Claim C7 (confirmed): a pixel-delta scroll `(x, y)` yields canonical
`Scroll (x, -y)` (Y sign flipped, no origin shift), so `(0, -5)` yields
`(0, 5)`; a line-delta scroll `(x, y)` yields `Scroll (10*x, -(10*y))`, so
`(1, 1)` yields `(10, -10)`. -/
theorem scroll_transform (win_w win_h x y : Rat) :
    convert_event win_w win_h
        (glutin.Event.WindowEvent
          (glutin.WindowEvent.MouseWheel (MouseScrollDelta.PixelDelta x y))) =
      some (Input.Motion (Motion.Scroll x (-y))) ∧
    convert_event win_w win_h
        (glutin.Event.WindowEvent
          (glutin.WindowEvent.MouseWheel (MouseScrollDelta.LineDelta x y))) =
      some (Input.Motion (Motion.Scroll (10 * x) (-(10 * y)))) ∧
    convert_event 800 600
        (glutin.Event.WindowEvent
          (glutin.WindowEvent.MouseWheel (MouseScrollDelta.PixelDelta 0 (-5)))) =
      some (Input.Motion (Motion.Scroll 0 5)) ∧
    convert_event 800 600
        (glutin.Event.WindowEvent
          (glutin.WindowEvent.MouseWheel (MouseScrollDelta.LineDelta 1 1))) =
      some (Input.Motion (Motion.Scroll 10 (-10))) :=
  ⟨rfl, by simp [convert_event, mul_neg], by norm_num [convert_event],
    by norm_num [convert_event]⟩

/-- Claim C8 (confirmed): a character-input event for one of delete
(`\x7f`), escape (`\x1b`), backspace (`\x08`), CR, LF or tab yields
`Text("")`; any other character `c` yields `Text(c.to_string())`. -/
theorem received_character_text (win_w win_h : Rat) (ch : Char) :
    convert_event win_w win_h
        (glutin.Event.WindowEvent (glutin.WindowEvent.ReceivedCharacter ch)) =
      some (Input.Text
        (if ch = '\x7f' ∨ ch = '\x1b' ∨ ch = '\x08' ∨ ch = '\r' ∨ ch = '\n' ∨
            ch = '\t'
          then "" else String.singleton ch)) := by
  show some (Input.Text _) = _
  split
  · simp
  · simp
  · simp
  · simp
  · simp
  · simp
  · rename_i h1 h2 h3 h4 h5 h6
    rw [if_neg]
    simp_all

/-- Claim C9 (confirmed): a keyboard-input event whose virtual key code is
absent yields `None`; with a key code present it yields `Press` or `Release`
of the converted key according to the platform pressed/released state. -/
theorem keyboard_input_events :
    (∀ (win_w win_h : Rat) (st : ElementState),
      convert_event win_w win_h
        (glutin.Event.WindowEvent (glutin.WindowEvent.KeyboardInput st none)) =
        none) ∧
    (∀ (win_w win_h : Rat) (k : VirtualKeyCode),
      convert_event win_w win_h
        (glutin.Event.WindowEvent
          (glutin.WindowEvent.KeyboardInput ElementState.Pressed (some k))) =
        some (Input.Press (Button.Keyboard (convert_key k)))) ∧
    (∀ (win_w win_h : Rat) (k : VirtualKeyCode),
      convert_event win_w win_h
        (glutin.Event.WindowEvent
          (glutin.WindowEvent.KeyboardInput ElementState.Released (some k))) =
        some (Input.Release (Button.Keyboard (convert_key k)))) :=
  ⟨fun _ _ st => by cases st <;> rfl, fun _ _ _ => rfl, fun _ _ _ => rfl⟩

/-- While a commit deadline is armed (`next_update = some t`), a step whose
event is neither an `Init` nor a `ResumeTimeReached` wake never commits and
leaves the deadline unchanged (`should_set_ui_on_main_events_cleared` is
false because `next_update.is_none()` is false, and the early-exit path does
not touch `next_update`). -/
lemma run_step_armed (s : LoopState) (i : StepInput) (t : Nat)
    (ht : s.next_update = some t)
    (h1 : i.event ≠ glutin.Event.NewEvents StartCause.Init)
    (h2 : i.event ≠ glutin.Event.NewEvents StartCause.ResumeTimeReached) :
    (run_step s i).set_ui_called = false ∧
    (run_step s i).state.next_update = some t := by
  obtain ⟨ev, now, sui, sexit, nrd⟩ := i
  obtain ⟨nu, ui⟩ := s
  simp only at ht h1 h2
  subst ht
  cases sexit
  · cases ev with
    | NewEvents c => cases c <;> simp_all [run_step]
    | _ => simp_all [run_step]
  · simp [run_step]

/-- While a commit deadline is armed, no step of a run avoiding `Init` and
`ResumeTimeReached` wakes ever commits. -/
lemma armed_no_commit (is : List StepInput)
    (h : ∀ p ∈ is, p.event ≠ glutin.Event.NewEvents StartCause.Init ∧
      p.event ≠ glutin.Event.NewEvents StartCause.ResumeTimeReached) :
    ∀ (s : LoopState) (t : Nat), s.next_update = some t →
      ∀ r ∈ run_trace s is, r.set_ui_called = false := by
  induction is with
  | nil => intro s t ht r hr; simp [run_trace] at hr
  | cons i is ih =>
    intro s t ht r hr
    obtain ⟨h1, h2⟩ := h i (List.mem_cons_self i is)
    have step := run_step_armed s i t ht h1 h2
    simp only [run_trace, List.mem_cons] at hr
    rcases hr with rfl | hr
    · exact step.1
    · exact ih (fun p hp => h p (List.mem_cons_of_mem _ hp))
        (run_step s i).state t step.2 r hr

/-- A step that commits with `needs_redraw = true` arms the deadline at
`now + sixteen_ms`. -/
lemma run_step_commit_arms (s : LoopState) (i : StepInput)
    (hfire : (run_step s i).set_ui_called = true)
    (hredraw : i.needs_redraw = true) :
    (run_step s i).state.next_update = some (i.now + sixteen_ms) := by
  obtain ⟨ev, now, sui, sexit, nrd⟩ := i
  obtain ⟨nu, ui⟩ := s
  simp only at hredraw
  subst hredraw
  cases sexit
  · cases ev with
    | NewEvents c => cases c <;> simp_all [run_step]
    | _ => simp_all [run_step]
  · simp [run_step] at hfire

/-- Claim C3 (amended): after a `MainEventsCleared` commit whose `SetUi`
callback reports `needs_redraw = true`, no further commit occurs at any
later step — in particular not at a second `MainEventsCleared` signal less
than `sixteen_ms` later with `update_requested` true — until an `Init` or
timer (`ResumeTimeReached`) wake arrives; the armed deadline keeps
`should_set_ui_on_main_events_cleared` false. (The unamended claim fails
when the first commit reports `needs_redraw = false`: the deadline is then
cleared and a second `MainEventsCleared` commits immediately, as the source
comment on lines 63–65 itself announces.) -/
theorem one_commit_per_armed_interval (s : LoopState) (i : StepInput)
    (rest : List StepInput)
    (hmec : i.event = glutin.Event.MainEventsCleared)
    (hfire : (run_step s i).set_ui_called = true)
    (hredraw : i.needs_redraw = true)
    (hrest : ∀ p ∈ rest, p.event ≠ glutin.Event.NewEvents StartCause.Init ∧
      p.event ≠ glutin.Event.NewEvents StartCause.ResumeTimeReached) :
    ∀ r ∈ run_trace (run_step s i).state rest, r.set_ui_called = false :=
  armed_no_commit rest hrest (run_step s i).state (i.now + sixteen_ms)
    (run_step_commit_arms s i hfire hredraw)

/-- Witness for `one_commit_per_armed_interval`: a `MainEventsCleared`
commit at time 0 reporting `needs_redraw = true`, followed by a second
`MainEventsCleared` with `should_update_ui = true` at time 5 (< 16), does
not commit again. -/
theorem one_commit_per_armed_interval_witness :
    (run_step
      (run_step init_state
        ⟨glutin.Event.MainEventsCleared, 0, true, false, true⟩).state
      ⟨glutin.Event.MainEventsCleared, 5, true, false, false⟩).set_ui_called
      = false := by
  have h := one_commit_per_armed_interval init_state
    ⟨glutin.Event.MainEventsCleared, 0, true, false, true⟩
    [⟨glutin.Event.MainEventsCleared, 5, true, false, false⟩]
    rfl rfl rfl (by decide)
  exact h _ (by simp [run_trace])

/-- Counterexample to claim C3 as stated: two `MainEventsCleared` signals at
times 0 and 5 (less than 16 apart), with `update_requested` true at both,
both commit, because the first commit reports `needs_redraw = false` and so
clears `next_update` back to `None`. -/
theorem two_commits_within_interval :
    ((run_trace init_state
        [⟨glutin.Event.MainEventsCleared, 0, true, false, false⟩,
         ⟨glutin.Event.MainEventsCleared, 5, true, false, false⟩]).map
      (fun r => r.set_ui_called)) = [true, true] := rfl

/-- A step from the initial state whose event sets neither
`should_update_ui` nor `should_exit` and is neither an `Init` nor a
`ResumeTimeReached` wake does not commit, does not request a redraw, leaves
the state initial, and leaves `control_flow = Wait`. -/
lemma run_step_idle (i : StepInput)
    (h3 : i.should_update_ui = false) (h4 : i.should_exit = false)
    (h5 : i.event ≠ glutin.Event.NewEvents StartCause.Init)
    (h6 : i.event ≠ glutin.Event.NewEvents StartCause.ResumeTimeReached) :
    (run_step init_state i).state = init_state ∧
    (run_step init_state i).set_ui_called = false ∧
    (run_step init_state i).redraw_requested = false ∧
    (run_step init_state i).control = ControlFlow.Wait := by
  obtain ⟨ev, now, sui, sexit, nrd⟩ := i
  simp only at h3 h4 h5 h6
  subst h3
  subst h4
  cases ev with
  | NewEvents c => cases c <;> simp_all [run_step, init_state]
  | _ => simp_all [run_step, init_state]

/-- Induction core for the idle-run claim: quantifier-first form of
`idle_run_never_commits`. -/
lemma idle_trace_aux : ∀ is : List StepInput,
    (∀ i ∈ is, i.should_update_ui = false ∧ i.should_exit = false ∧
      i.event ≠ glutin.Event.NewEvents StartCause.Init ∧
      i.event ≠ glutin.Event.NewEvents StartCause.ResumeTimeReached) →
    ∀ r ∈ run_trace init_state is,
      r.set_ui_called = false ∧ r.redraw_requested = false ∧
      r.control = ControlFlow.Wait := by
  intro is
  induction is with
  | nil => intro _ r hr; simp [run_trace] at hr
  | cons i is ih =>
    intro h r hr
    obtain ⟨h3, h4, h5, h6⟩ := h i (List.mem_cons_self i is)
    have step := run_step_idle i h3 h4 h5 h6
    simp only [run_trace, List.mem_cons] at hr
    rcases hr with rfl | hr
    · exact ⟨step.2.1, step.2.2.1, step.2.2.2⟩
    · rw [step.1] at hr
      exact ih (fun p hp => h p (List.mem_cons_of_mem _ hp)) r hr

/-- Claim C2 (amended): in a run of the loop in which no event sets
`should_update_ui`, no event requests exit, and no wake cause is `Init` or
`ResumeTimeReached`, no commit (`SetUi`) and no `request_redraw()` ever
fires, and every step leaves `control_flow = Wait` (never `Poll`, never
`WaitUntil`). (The unamended claim fails because the `Init` wake that starts
every run — and every timer wake — commits unconditionally, see the
counterexample.) -/
theorem idle_run_never_commits (is : List StepInput)
    (hui : ∀ i ∈ is, i.should_update_ui = false)
    (hexit : ∀ i ∈ is, i.should_exit = false)
    (hwake : ∀ i ∈ is, i.event ≠ glutin.Event.NewEvents StartCause.Init ∧
      i.event ≠ glutin.Event.NewEvents StartCause.ResumeTimeReached) :
    ∀ r ∈ run_trace init_state is,
      r.set_ui_called = false ∧ r.redraw_requested = false ∧
      r.control = ControlFlow.Wait :=
  idle_trace_aux is
    (fun i hi => ⟨hui i hi, hexit i hi, (hwake i hi).1, (hwake i hi).2⟩)

/-- Witness for `idle_run_never_commits`: a one-step run consisting of a
`MainEventsCleared` signal with all callback outputs false neither commits
nor requests a redraw, and waits indefinitely. -/
theorem idle_run_never_commits_witness :
    (run_step init_state
      ⟨glutin.Event.MainEventsCleared, 0, false, false, false⟩).set_ui_called
      = false ∧
    (run_step init_state
      ⟨glutin.Event.MainEventsCleared, 0, false, false, false⟩).control
      = ControlFlow.Wait := by
  have h := idle_run_never_commits
    [⟨glutin.Event.MainEventsCleared, 0, false, false, false⟩]
    (by decide) (by decide) (by decide)
    (run_step init_state ⟨glutin.Event.MainEventsCleared, 0, false, false, false⟩)
    (by simp [run_trace])
  exact ⟨h.1, h.2.2⟩

/-- Counterexample to claim C2 as stated: the one-event run consisting of
the `Init` wake — which starts every real run of the loop — commits,
requests a redraw (the `SetUi` callback reported `needs_redraw = true`), and
sets a timed wait, even though no event set `should_update_ui`. -/
theorem idle_init_run_commits :
    (run_trace init_state
        [⟨glutin.Event.NewEvents StartCause.Init, 0, false, false, true⟩]).map
      (fun r => (r.set_ui_called, r.redraw_requested, r.control)) =
      [(true, true, ControlFlow.WaitUntil 16)] := rfl

/-- Claim C4 (confirmed): in every state (reachable or not), (a) a commit
fires only on an `Init` or `ResumeTimeReached` wake or when `next_update`
is absent and `ui_update_needed` (after OR-ing in the current event's
`should_update_ui`) is true; (b) `request_redraw()` is issued only on a step
that commits with `needs_redraw = true`; (c) a commit reporting
`needs_redraw = false` clears `next_update` back to `None`. -/
theorem commit_redraw_invariants (s : LoopState) (i : StepInput) :
    ((run_step s i).set_ui_called = true →
      i.event = glutin.Event.NewEvents StartCause.Init ∨
      i.event = glutin.Event.NewEvents StartCause.ResumeTimeReached ∨
      (s.next_update = none ∧ (s.ui_update_needed || i.should_update_ui) = true)) ∧
    ((run_step s i).redraw_requested = true →
      (run_step s i).set_ui_called = true ∧ i.needs_redraw = true) ∧
    ((run_step s i).set_ui_called = true → i.needs_redraw = false →
      (run_step s i).state.next_update = none) := by
  obtain ⟨ev, now, sui, sexit, nrd⟩ := i
  obtain ⟨nu, ui⟩ := s
  cases sexit
  · cases nu <;> cases ui <;> cases sui <;> (cases ev with
      | NewEvents c => cases c <;> simp_all [run_step]
      | _ => simp_all [run_step])
  · simp [run_step]

/-- Witness for `commit_redraw_invariants`: at the `Init` wake from the
initial state, a commit reporting `needs_redraw = false` leaves
`next_update` absent, and one reporting `needs_redraw = true` is a commit
with `needs_redraw` set. -/
theorem commit_redraw_invariants_witness :
    (run_step init_state
      ⟨glutin.Event.NewEvents StartCause.Init, 0, false, false,
        false⟩).state.next_update = none ∧
    ((run_step init_state
      ⟨glutin.Event.NewEvents StartCause.Init, 0, false, false,
        true⟩).set_ui_called = true ∧
      (⟨glutin.Event.NewEvents StartCause.Init, 0, false, false, true⟩ :
        StepInput).needs_redraw = true) :=
  ⟨(commit_redraw_invariants init_state
      ⟨glutin.Event.NewEvents StartCause.Init, 0, false, false, false⟩).2.2
      rfl rfl,
    (commit_redraw_invariants init_state
      ⟨glutin.Event.NewEvents StartCause.Init, 0, false, false, true⟩).2.1
      rfl⟩

/-- Claim C5 (amended): at an `Init` wake, from any state and whatever
`should_update_ui` the callback reports, the loop commits — provided the
event callback did not request exit at that observation. (The unamended
claim fails when the callback sets `should_exit` on the first event: the
body returns before the commit match, see the counterexample.) -/
theorem init_wake_always_commits (s : LoopState) (i : StepInput)
    (hev : i.event = glutin.Event.NewEvents StartCause.Init)
    (hexit : i.should_exit = false) :
    (run_step s i).set_ui_called = true := by
  obtain ⟨ev, now, sui, sexit, nrd⟩ := i
  simp only at hev hexit
  subst hev
  subst hexit
  simp [run_step]

/-- Witness for `init_wake_always_commits`: the `Init` wake from the initial
state with `should_update_ui = false` commits. -/
theorem init_wake_always_commits_witness :
    (run_step init_state
      ⟨glutin.Event.NewEvents StartCause.Init, 0, false, false,
        false⟩).set_ui_called = true :=
  init_wake_always_commits init_state
    ⟨glutin.Event.NewEvents StartCause.Init, 0, false, false, false⟩ rfl rfl

/-- Counterexample to claim C5 as stated: if the event callback sets
`should_exit` on the very first (`Init`) observation, the commit is skipped
even though `should_update_ui` was set. -/
theorem init_commit_skipped_on_exit :
    (run_step init_state
      ⟨glutin.Event.NewEvents StartCause.Init, 0, true, true,
        true⟩).set_ui_called = false := rfl
